import Mathlib

/-!
Verification development for the admin content-management workflow of the
miccoach marketing-site repository (`src/pages/Admin.tsx`).

The embedding is shallow: the zod validation schemas, the submission
handlers (`handleSubmit`, `handleServiceSubmit`, `handleGallerySubmit`),
the delete actions (`deleteProject`, `deleteService`, `deleteGalleryItem`)
and the edit-cancel action (`cancelEditService`) are translated into pure
Lean functions.  Network effects (Supabase database and storage calls) are
represented by an explicit trace of `NetOp` values produced by each
handler, and the outcome of each external call is supplied by an
environment record, so that every control-flow path of the source can be
examined.
-/

namespace Miccoach

/-- A database value occurring in an insert/update payload
(JS object literals in the source). -/
inductive DbVal where
  | str (v : String)
  | int (v : Int)
  | bool (v : Bool)
  | null
deriving Repr, DecidableEq

/-- An insert/update payload: the field-name/value pairs of the JS object
literal passed to `.insert(...)` / `.update(...)`, in source order. -/
abbrev Payload := List (String × DbVal)

/-- A network operation issued by a handler, in issue order. -/
inductive NetOp where
  | storageUpload (bucket : String) (path : String)
  | storageRemove (bucket : String) (paths : List String)
  | dbInsert (table : String) (row : Payload)
  | dbUpdate (table : String) (id : String) (row : Payload)
  | dbDelete (table : String) (id : String)
  | dbSelect (table : String)
deriving Repr, DecidableEq

/-- Does the operation remove objects from storage? -/
def NetOp.isStorageRemove : NetOp → Bool
  | .storageRemove _ _ => true
  | _ => false

/-- Does the operation upload an object to storage? -/
def NetOp.isUpload : NetOp → Bool
  | .storageUpload _ _ => true
  | _ => false

/-- Is the operation a database insert? -/
def NetOp.isDbInsert : NetOp → Bool
  | .dbInsert _ _ => true
  | _ => false

/-- Is the operation a database delete? -/
def NetOp.isDbDelete : NetOp → Bool
  | .dbDelete _ _ => true
  | _ => false

/-- A local file handle (`File` in the browser); only its name is
observable to the handlers. -/
structure FileH where
  name : String
deriving Repr, DecidableEq

/-- The whitespace class of JavaScript `String.prototype.trim`
(ASCII whitespace, NBSP and the BOM). -/
def isJsWhitespace (c : Char) : Bool :=
  c == ' ' || c == '\t' || c == '\n' || c == '\r' || c == '\x0b' ||
  c == '\x0c' || c == ' ' || c == '﻿'

/-- Trim of a character list: drop leading and trailing JS whitespace. -/
def jsTrimList (l : List Char) : List Char :=
  ((l.dropWhile isJsWhitespace).reverse.dropWhile isJsWhitespace).reverse

/-- Model of JavaScript `String.prototype.trim` (used both by the
handlers and by the zod `.trim()` transform). -/
def jsTrim (s : String) : String :=
  ⟨jsTrimList s.data⟩

/-- JS `s || undefined`: an empty string becomes `undefined` (`none`). -/
def optStr (s : String) : Option String :=
  if s = "" then none else some s

/-- JS `x || null` on an optional string field of a validated record:
`undefined` and the empty string both become SQL `null`. -/
def optToVal : Option String → DbVal
  | none => .null
  | some s => if s = "" then .null else .str s

/-- JS `s.split(sep)` for a one-character separator, on character
lists; always returns at least one (possibly empty) segment. -/
def splitOnChar (sep : Char) : List Char → List (List Char)
  | [] => [[]]
  | c :: rest =>
    match splitOnChar sep rest with
    | [] => [[]]
    | seg :: segs =>
      if c = sep then [] :: seg :: segs else (c :: seg) :: segs

/-- JS `name.split('.').pop()`: the substring after the last dot
(the whole name when there is no dot). -/
def fileExt (name : String) : String :=
  ⟨(splitOnChar '.' name.data).getLastD []⟩

/-- JS `url.split('/').pop()`: the last path segment of a URL. -/
def lastSegment (url : String) : String :=
  ⟨(splitOnChar '/' url.data).getLastD []⟩

/-- Modelled from the spec: the object-storage facility of the external
data-and-storage backend exposes `getPublicUrl(path)`, which maps a
bucket-scoped path to its public URL (vendor SDK, not part of `src/`). -/
def getPublicUrl (bucket path : String) : String :=
  "https://storage.example.com/object/public/" ++ bucket ++ "/" ++ path

/-! ### Validation layer: the three zod schemas

`z.string().trim().min(a).max(b)` first applies the trim transform and
then checks the bounds on the trimmed value; `.optional()` lets an absent
value pass through.  `z.object` rejects iff some field check rejects; the
embedding reports the first failing field. -/

/-- `z.string().trim().min(lo, msg).max(hi)` applied to `s`. -/
def zTrimMinMax (lo hi : Nat) (minMsg : String) (s : String) :
    Except String String :=
  let t := jsTrim s
  if t.length < lo then .error minMsg
  else if t.length > hi then .error "String must contain at most the maximum number of characters"
  else .ok t

/-- `z.string().trim().min(lo, msg)` (no `.max`): the chain used for the
service description. -/
def zTrimMin (lo : Nat) (minMsg : String) (s : String) :
    Except String String :=
  let t := jsTrim s
  if t.length < lo then .error minMsg
  else .ok t

/-- `.optional()` around a string chain. -/
def zOptional (f : String → Except String String) :
    Option String → Except String (Option String)
  | none => .ok none
  | some s =>
    match f s with
    | .error e => .error e
    | .ok t => .ok (some t)

/-- `z.number().min(1900).max(new Date().getFullYear() + 1).optional()`;
`currentYear` is the year at module-evaluation time. -/
def zYear (currentYear : Int) : Option Int → Except String (Option Int)
  | none => .ok none
  | some y =>
    if y < 1900 then .error "Number must be greater than or equal to 1900"
    else if y > currentYear + 1 then .error "Number must be less than or equal to the maximum"
    else .ok (some y)

/-- Raw input to `projectSchema.parse` (the object literal built in
`handleSubmit`). -/
structure ProjectInput where
  title : String
  description : String
  category : String
  location : Option String
  year_completed : Option Int
deriving Repr, DecidableEq

/-- Output of a successful `projectSchema.parse`. -/
structure ProjectParsed where
  title : String
  description : String
  category : String
  location : Option String
  year_completed : Option Int
deriving Repr, DecidableEq

/-- `projectSchema`: title 1..200, description 1..2000, category 1..100,
optional location ≤ 200, optional year in [1900, currentYear + 1]. -/
def projectSchemaParse (currentYear : Int) (i : ProjectInput) :
    Except String ProjectParsed :=
  match zTrimMinMax 1 200 "Title is required" i.title with
  | .error e => .error e
  | .ok t =>
  match zTrimMinMax 1 2000 "Description is required" i.description with
  | .error e => .error e
  | .ok d =>
  match zTrimMinMax 1 100 "Category is required" i.category with
  | .error e => .error e
  | .ok c =>
  match zOptional (zTrimMinMax 0 200 "") i.location with
  | .error e => .error e
  | .ok l =>
  match zYear currentYear i.year_completed with
  | .error e => .error e
  | .ok y => .ok ⟨t, d, c, l, y⟩

/-- Raw input to `serviceSchema.parse` (the object literal built in
`handleServiceSubmit`). -/
structure ServiceInput where
  title : String
  slug : String
  short_description : Option String
  description : String
  icon : Option String
deriving Repr, DecidableEq

/-- Output of a successful `serviceSchema.parse`. -/
structure ServiceParsed where
  title : String
  slug : String
  short_description : Option String
  description : String
  icon : Option String
deriving Repr, DecidableEq

/-- `serviceSchema`: title 1..200, slug 1..200, optional short
description ≤ 500, description min 1 (no maximum), optional icon ≤ 100. -/
def serviceSchemaParse (i : ServiceInput) : Except String ServiceParsed :=
  match zTrimMinMax 1 200 "Title is required" i.title with
  | .error e => .error e
  | .ok t =>
  match zTrimMinMax 1 200 "Slug is required" i.slug with
  | .error e => .error e
  | .ok sl =>
  match zOptional (zTrimMinMax 0 500 "") i.short_description with
  | .error e => .error e
  | .ok sd =>
  match zTrimMin 1 "Description is required" i.description with
  | .error e => .error e
  | .ok d =>
  match zOptional (zTrimMinMax 0 100 "") i.icon with
  | .error e => .error e
  | .ok ic => .ok ⟨t, sl, sd, d, ic⟩

/-- Raw input to `gallerySchema.parse` (the object literal built in
`handleGallerySubmit`). -/
structure GalleryInput where
  title : Option String
  description : Option String
  category : String
deriving Repr, DecidableEq

/-- Output of a successful `gallerySchema.parse`. -/
structure GalleryParsed where
  title : Option String
  description : Option String
  category : String
deriving Repr, DecidableEq

/-- `gallerySchema`: optional title ≤ 200, optional description ≤ 500,
category 1..100. -/
def gallerySchemaParse (i : GalleryInput) : Except String GalleryParsed :=
  match zOptional (zTrimMinMax 0 200 "") i.title with
  | .error e => .error e
  | .ok t =>
  match zOptional (zTrimMinMax 0 500 "") i.description with
  | .error e => .error e
  | .ok d =>
  match zTrimMinMax 1 100 "Category is required" i.category with
  | .error e => .error e
  | .ok c => .ok ⟨t, d, c⟩

/-! ### Media upload pipeline

Each of the four per-file upload loops of the source (project images,
project videos, service images, service videos) and the gallery image
loop share the same shape: build a randomized filename preserving the
original extension, upload to the bucket, obtain the public URL, insert
a row.  `uploadLoop` is that shape; each call site instantiates bucket,
table, path scope and row constructor exactly as the source does. -/

/-- Result of a sequential upload loop: the operations issued (in
order), the successfully inserted rows (in order), and the error that
aborted the loop, if any. -/
structure LoopOut where
  ops : List NetOp
  committed : List Payload
  err : Option String
deriving Repr, DecidableEq

/-- The sequential per-file loop.  `randF i` is the `Math.random()`
string drawn at iteration `i`; `upErr i` / `insErr i` are the outcomes
of the storage upload and the row insert at iteration `i` (`none` =
success).  A failing call throws: the loop stops, later files are not
touched, earlier rows stay committed. -/
def uploadLoop (bucket table pathBase : String) (mkRow : String → Nat → Payload)
    (randF : Nat → String) (upErr insErr : Nat → Option String) :
    List FileH → Nat → LoopOut
  | [], _ => ⟨[], [], none⟩
  | f :: fs, i =>
    let path := pathBase ++ randF i ++ "." ++ fileExt f.name
    let upOp := NetOp.storageUpload bucket path
    match upErr i with
    | some e => ⟨[upOp], [], some e⟩
    | none =>
      let row := mkRow (getPublicUrl bucket path) i
      let insOp := NetOp.dbInsert table row
      match insErr i with
      | some e => ⟨[upOp, insOp], [], some e⟩
      | none =>
        let rest := uploadLoop bucket table pathBase mkRow randF upErr insErr fs (i + 1)
        ⟨upOp :: insOp :: rest.ops, row :: rest.committed, rest.err⟩

/-- The `project_images` row inserted at loop index `i`. -/
def mkProjectImageRow (pid url : String) (i : Nat) : Payload :=
  [("project_id", .str pid), ("image_url", .str url),
   ("is_primary", .bool (i == 0)), ("display_order", .int (i : Int))]

/-- The `project_videos` row inserted at loop index `i`. -/
def mkProjectVideoRow (pid url : String) (i : Nat) : Payload :=
  [("project_id", .str pid), ("video_url", .str url),
   ("display_order", .int (i : Int))]

/-- The `service_images` row inserted at loop index `i`. -/
def mkServiceImageRow (sid url : String) (i : Nat) : Payload :=
  [("service_id", .str sid), ("image_url", .str url),
   ("is_primary", .bool (i == 0)), ("display_order", .int (i : Int))]

/-- The `service_videos` row inserted at loop index `i`. -/
def mkServiceVideoRow (sid url : String) (i : Nat) : Payload :=
  [("service_id", .str sid), ("video_url", .str url),
   ("display_order", .int (i : Int))]

/-- The `gallery` row inserted for an uploaded image (note: the source
object literal has no `display_order` and no `is_primary` field). -/
def mkGalleryImageRow (v : GalleryParsed) (url : String) (_i : Nat) : Payload :=
  [("image_url", .str url), ("title", optToVal v.title),
   ("description", optToVal v.description), ("category", .str v.category),
   ("media_type", .str "image")]

/-- The `gallery` row inserted for a video URL. -/
def galleryVideoRow (v : GalleryParsed) (videoUrl : String) : Payload :=
  [("image_url", .null), ("video_url", .str videoUrl),
   ("title", optToVal v.title), ("description", optToVal v.description),
   ("category", .str v.category), ("media_type", .str "video")]

/-! ### Handler outcomes -/

/-- Observable outcome of one run of a submission handler: the network
operations issued in order, the successfully inserted rows tagged with
their table, the toasts shown, the final `submitting` flag, and the
in-memory list of the handler's collection after the run. -/
structure Outcome where
  ops : List NetOp
  committed : List (String × Payload)
  successToast : Bool
  errorMsg : Option String
  submitting : Bool
  listAfter : List Payload
deriving Repr, DecidableEq

/-- The rows committed to table `t` during a run, in insertion order. -/
def rowsFor (t : String) (c : List (String × Payload)) : List Payload :=
  (c.filter (fun tp => tp.1 == t)).map (fun tp => tp.2)

/-- A `fetchX` call after a successful mutation: on success the
in-memory list is replaced by the backend's list, on failure a toast is
shown and the previous list is kept. -/
def fetchOutcome (failMsg : String) (res : Except String (List Payload))
    (old : List Payload) : Option String × List Payload :=
  match res with
  | .ok l => (none, l)
  | .error _ => (some failMsg, old)

/-! ### `handleSubmit` (project creation) -/

/-- Outcomes of the external calls a project submission can make. -/
structure ProjectEnv where
  insertProjectResult : Except String String
  imageRand : Nat → String
  imageUploadErr : Nat → Option String
  imageInsertErr : Nat → Option String
  videoRand : Nat → String
  videoUploadErr : Nat → Option String
  videoInsertErr : Nat → Option String
  fetchProjectsResult : Except String (List Payload)

/-- The project form state at submission time.  `yearCompleted` is the
parsed value of the numeric year input (`none` when the field is blank,
mirroring `yearCompleted ? parseInt(yearCompleted) : undefined`). -/
structure ProjectForm where
  title : String
  description : String
  category : String
  location : String
  yearCompleted : Option Int
  images : List FileH
  videos : List FileH

/-- The `projects` insert payload built from the validated record,
including the truthiness guards on the optional fields. -/
def projectDataOf (v : ProjectParsed) : Payload :=
  [("title", .str v.title), ("description", .str v.description),
   ("category", .str v.category)]
  ++ (match v.location with
      | some l => if l = "" then [] else [("location", .str l)]
      | none => [])
  ++ (match v.year_completed with
      | some y => if y = 0 then [] else [("year_completed", .int y)]
      | none => [])

/-- `handleSubmit`: validate, insert the project, upload images then
videos sequentially (fail-fast, no rollback), then toast and refresh.
The `finally` block clears `submitting` on every path. -/
def handleSubmit (currentYear : Int) (env : ProjectEnv) (form : ProjectForm)
    (projects0 : List Payload) : Outcome :=
  match projectSchemaParse currentYear
      ⟨jsTrim form.title, jsTrim form.description, jsTrim form.category,
       optStr (jsTrim form.location), form.yearCompleted⟩ with
  | .error e => ⟨[], [], false, some e, false, projects0⟩
  | .ok v =>
    let pdata := projectDataOf v
    let insOp := NetOp.dbInsert "projects" pdata
    match env.insertProjectResult with
    | .error e => ⟨[insOp], [], false, some e, false, projects0⟩
    | .ok pid =>
      let imgLoop := uploadLoop "project-images" "project_images" (pid ++ "/")
          (mkProjectImageRow pid) env.imageRand env.imageUploadErr
          env.imageInsertErr form.images 0
      let committedImgs :=
        ("projects", pdata) ::
          imgLoop.committed.map (fun r => ("project_images", r))
      match imgLoop.err with
      | some e =>
        ⟨insOp :: imgLoop.ops, committedImgs, false, some e, false, projects0⟩
      | none =>
        let vidLoop := uploadLoop "project-images" "project_videos" (pid ++ "/")
            (mkProjectVideoRow pid) env.videoRand env.videoUploadErr
            env.videoInsertErr form.videos 0
        let committedAll :=
          committedImgs ++ vidLoop.committed.map (fun r => ("project_videos", r))
        match vidLoop.err with
        | some e =>
          ⟨insOp :: imgLoop.ops ++ vidLoop.ops, committedAll, false, some e,
           false, projects0⟩
        | none =>
          let fo := fetchOutcome "Failed to fetch projects"
              env.fetchProjectsResult projects0
          ⟨insOp :: imgLoop.ops ++ vidLoop.ops ++ [NetOp.dbSelect "projects"],
           committedAll, true, fo.1, false, fo.2⟩

/-! ### `handleServiceSubmit` (service create / update) -/

/-- Outcomes of the external calls a service submission can make. -/
structure ServiceEnv where
  updateResult : Option String
  insertServiceResult : Except String String
  imageRand : Nat → String
  imageUploadErr : Nat → Option String
  imageInsertErr : Nat → Option String
  videoRand : Nat → String
  videoUploadErr : Nat → Option String
  videoInsertErr : Nat → Option String
  fetchServicesResult : Except String (List Payload)

/-- The service form state at submission time; `editing` is the
`editingService` id when the form is in edit mode. -/
structure ServiceForm where
  title : String
  slug : String
  shortDesc : String
  description : String
  icon : String
  images : List FileH
  videos : List FileH
  editing : Option String

/-- The `services` insert/update payload built from the validated
record, including the truthiness guards on the optional fields. -/
def serviceDataOf (v : ServiceParsed) : Payload :=
  [("title", .str v.title), ("slug", .str v.slug),
   ("description", .str v.description)]
  ++ (match v.short_description with
      | some s => if s = "" then [] else [("short_description", .str s)]
      | none => [])
  ++ (match v.icon with
      | some s => if s = "" then [] else [("icon", .str s)]
      | none => [])

/-- `handleServiceSubmit`: validate, then either update the edited
service, or insert a new one and upload its images and videos
sequentially; on success clear the form and refresh the list. -/
def handleServiceSubmit (env : ServiceEnv) (form : ServiceForm)
    (services0 : List Payload) : Outcome :=
  match serviceSchemaParse
      ⟨jsTrim form.title, jsTrim form.slug, optStr (jsTrim form.shortDesc),
       jsTrim form.description, optStr (jsTrim form.icon)⟩ with
  | .error e => ⟨[], [], false, some e, false, services0⟩
  | .ok v =>
    let sdata := serviceDataOf v
    match form.editing with
    | some sid =>
      let updOp := NetOp.dbUpdate "services" sid sdata
      match env.updateResult with
      | some e => ⟨[updOp], [], false, some e, false, services0⟩
      | none =>
        let fo := fetchOutcome "Failed to fetch services"
            env.fetchServicesResult services0
        ⟨[updOp, NetOp.dbSelect "services"], [], true, fo.1, false, fo.2⟩
    | none =>
      let insOp := NetOp.dbInsert "services" sdata
      match env.insertServiceResult with
      | .error e => ⟨[insOp], [], false, some e, false, services0⟩
      | .ok sid =>
        let imgLoop := uploadLoop "service-images" "service_images" (sid ++ "/")
            (mkServiceImageRow sid) env.imageRand env.imageUploadErr
            env.imageInsertErr form.images 0
        let committedImgs :=
          ("services", sdata) ::
            imgLoop.committed.map (fun r => ("service_images", r))
        match imgLoop.err with
        | some e =>
          ⟨insOp :: imgLoop.ops, committedImgs, false, some e, false, services0⟩
        | none =>
          let vidLoop := uploadLoop "service-images" "service_videos" (sid ++ "/")
              (mkServiceVideoRow sid) env.videoRand env.videoUploadErr
              env.videoInsertErr form.videos 0
          let committedAll :=
            committedImgs ++ vidLoop.committed.map (fun r => ("service_videos", r))
          match vidLoop.err with
          | some e =>
            ⟨insOp :: imgLoop.ops ++ vidLoop.ops, committedAll, false, some e,
             false, services0⟩
          | none =>
            let fo := fetchOutcome "Failed to fetch services"
                env.fetchServicesResult services0
            ⟨insOp :: imgLoop.ops ++ vidLoop.ops ++ [NetOp.dbSelect "services"],
             committedAll, true, fo.1, false, fo.2⟩

/-! ### `handleGallerySubmit` (gallery media batch) -/

/-- Outcomes of the external calls a gallery submission can make. -/
structure GalleryEnv where
  rand : Nat → String
  uploadErr : Nat → Option String
  insertErr : Nat → Option String
  videoInsertErr : Option String
  fetchGalleryResult : Except String (List Payload)

/-- The gallery form state at submission time. -/
structure GalleryForm where
  mediaType : String
  images : List FileH
  videoUrl : String
  title : String
  description : String
  category : String

/-- `handleGallerySubmit`: two early-return guards (which leave the
`submitting` flag untouched), then validation, then either the
sequential image loop or a single video-row insert; on success clear
the form and refresh the list. -/
def handleGallerySubmit (env : GalleryEnv) (form : GalleryForm)
    (items0 : List Payload) (submitting0 : Bool) : Outcome :=
  if form.mediaType = "image" ∧ form.images.length = 0 then
    ⟨[], [], false, some "Please select at least one image", submitting0, items0⟩
  else if form.mediaType = "video" ∧ jsTrim form.videoUrl = "" then
    ⟨[], [], false, some "Please enter a video URL", submitting0, items0⟩
  else
    match gallerySchemaParse
        ⟨optStr (jsTrim form.title), optStr (jsTrim form.description),
         form.category⟩ with
    | .error e => ⟨[], [], false, some e, false, items0⟩
    | .ok v =>
      if form.mediaType = "image" then
        let lo := uploadLoop "gallery-images" "gallery" ""
            (mkGalleryImageRow v) env.rand env.uploadErr env.insertErr
            form.images 0
        let comm := lo.committed.map (fun r => ("gallery", r))
        match lo.err with
        | some e => ⟨lo.ops, comm, false, some e, false, items0⟩
        | none =>
          let fo := fetchOutcome "Failed to fetch gallery items"
              env.fetchGalleryResult items0
          ⟨lo.ops ++ [NetOp.dbSelect "gallery"], comm, true, fo.1, false, fo.2⟩
      else
        let row := galleryVideoRow v (jsTrim form.videoUrl)
        let insOp := NetOp.dbInsert "gallery" row
        match env.videoInsertErr with
        | some e => ⟨[insOp], [], false, some e, false, items0⟩
        | none =>
          let fo := fetchOutcome "Failed to fetch gallery items"
              env.fetchGalleryResult items0
          ⟨[insOp, NetOp.dbSelect "gallery"], [("gallery", row)], true, fo.1,
           false, fo.2⟩

/-! ### Delete actions -/

/-- Outcomes of the external calls a delete action can make.
`removeResult` is the result of the storage `remove` call; the source
discards it, so it cannot influence the rest of the action. -/
structure DeleteEnv where
  removeResult : Option String
  deleteErr : Option String
  fetchResult : Except String (List Payload)

/-- Observable outcome of a delete action. -/
structure DeleteOutcome where
  ops : List NetOp
  successToast : Bool
  errorMsg : Option String
  listAfter : List Payload
deriving Repr, DecidableEq

/-- `deleteGalleryItem`: after the confirm guard, best-effort removal of
the stored file named by the last path segment of the image URL (skipped
when there is no URL or the segment is empty), then the database delete
regardless of the removal's result, then toast and refresh. -/
def deleteGalleryItem (env : DeleteEnv) (confirmed : Bool) (id : String)
    (imageUrl : Option String) (items0 : List Payload) : DeleteOutcome :=
  if !confirmed then ⟨[], false, none, items0⟩
  else
    let removeOps :=
      match imageUrl with
      | some url =>
        let fp := lastSegment url
        if fp = "" then [] else [NetOp.storageRemove "gallery-images" [fp]]
      | none => []
    let delOp := NetOp.dbDelete "gallery" id
    match env.deleteErr with
    | some e => ⟨removeOps ++ [delOp], false, some e, items0⟩
    | none =>
      let fo := fetchOutcome "Failed to fetch gallery items"
          env.fetchResult items0
      ⟨removeOps ++ [delOp, NetOp.dbSelect "gallery"], true, fo.1, fo.2⟩

/-- `deleteProject`: after the confirm guard, only the database delete
is issued (no storage cleanup appears in the source), then toast and
refresh. -/
def deleteProject (env : DeleteEnv) (confirmed : Bool) (id : String)
    (projects0 : List Payload) : DeleteOutcome :=
  if !confirmed then ⟨[], false, none, projects0⟩
  else
    let delOp := NetOp.dbDelete "projects" id
    match env.deleteErr with
    | some _ => ⟨[delOp], false, some "Failed to delete project", projects0⟩
    | none =>
      let fo := fetchOutcome "Failed to fetch projects" env.fetchResult projects0
      ⟨[delOp, NetOp.dbSelect "projects"], true, fo.1, fo.2⟩

/-- `deleteService`: after the confirm guard, only the database delete
is issued (no storage cleanup appears in the source), then toast and
refresh. -/
def deleteService (env : DeleteEnv) (confirmed : Bool) (id : String)
    (services0 : List Payload) : DeleteOutcome :=
  if !confirmed then ⟨[], false, none, services0⟩
  else
    let delOp := NetOp.dbDelete "services" id
    match env.deleteErr with
    | some _ => ⟨[delOp], false, some "Failed to delete service", services0⟩
    | none =>
      let fo := fetchOutcome "Failed to fetch services" env.fetchResult services0
      ⟨[delOp, NetOp.dbSelect "services"], true, fo.1, fo.2⟩

/-! ### `cancelEditService` -/

/-- The service form's component state (the seven `useState` cells the
cancel action writes to). -/
structure ServiceFormState where
  editingService : Option String
  serviceTitle : String
  serviceSlug : String
  serviceShortDesc : String
  serviceDescription : String
  serviceIcon : String
  serviceImages : List FileH
deriving Repr, DecidableEq

/-- The empty defaults of the service form. -/
def emptyServiceFormState : ServiceFormState :=
  ⟨none, "", "", "", "", "", []⟩

/-- `cancelEditService`: resets every service form field to its empty
default; it issues no network operation and does not touch the
in-memory services list. -/
def cancelEditService (_s : ServiceFormState) (services : List Payload) :
    ServiceFormState × List Payload × List NetOp :=
  (emptyServiceFormState, services, [])

/-! ### Helper lemmas about trimming -/

/-- A list whose head fails `p` is unchanged by `dropWhile p`. -/
theorem dropWhile_eq_self_of_head {α : Type} {p : α → Bool} {l : List α}
    (h : ∀ c, l.head? = some c → p c = false) : l.dropWhile p = l := by
  cases l with
  | nil => rfl
  | cons a t =>
    have ha : p a = false := h a rfl
    simp [List.dropWhile_cons, ha]

/-- `dropWhile` only removes a prefix, so it preserves `getLast?` of a
list it leaves nonempty. -/
theorem getLast?_dropWhile {α : Type} (p : α → Bool) (l : List α)
    (h : l.dropWhile p ≠ []) : (l.dropWhile p).getLast? = l.getLast? := by
  induction l with
  | nil => simp at h
  | cons a t ih =>
    by_cases hp : p a
    · rw [List.dropWhile_cons_of_pos hp] at h ⊢
      rw [ih h]
      cases t with
      | nil => simp [List.dropWhile] at h
      | cons b u => simp
    · rw [List.dropWhile_cons_of_neg hp]

/-- The head of a trimmed list is not whitespace. -/
theorem head?_jsTrimList {l : List Char} {c : Char}
    (h : (jsTrimList l).head? = some c) : isJsWhitespace c = false := by
  unfold jsTrimList at h
  rw [List.head?_reverse] at h
  have hne : (((l.dropWhile isJsWhitespace).reverse).dropWhile isJsWhitespace) ≠ [] := by
    intro hnil
    rw [hnil] at h
    simp at h
  rw [getLast?_dropWhile _ _ hne, List.getLast?_reverse] at h
  have := List.head?_dropWhile_not isJsWhitespace l
  rw [h] at this
  exact this

/-- The last element of a trimmed list is not whitespace. -/
theorem getLast?_jsTrimList {l : List Char} {c : Char}
    (h : (jsTrimList l).getLast? = some c) : isJsWhitespace c = false := by
  unfold jsTrimList at h
  rw [List.getLast?_reverse] at h
  have := List.head?_dropWhile_not isJsWhitespace (l.dropWhile isJsWhitespace).reverse
  rw [h] at this
  exact this

/-- Trimming is idempotent on character lists. -/
theorem jsTrimList_idem (l : List Char) :
    jsTrimList (jsTrimList l) = jsTrimList l := by
  have h1 : (jsTrimList l).dropWhile isJsWhitespace = jsTrimList l :=
    dropWhile_eq_self_of_head (fun c hc => head?_jsTrimList hc)
  have h2 : (jsTrimList l).reverse.dropWhile isJsWhitespace = (jsTrimList l).reverse := by
    refine dropWhile_eq_self_of_head (fun c hc => ?_)
    rw [List.head?_reverse] at hc
    exact getLast?_jsTrimList hc
  show ((((jsTrimList l).dropWhile isJsWhitespace).reverse).dropWhile isJsWhitespace).reverse = jsTrimList l
  rw [h1, h2, List.reverse_reverse]

/-- JS `trim` is idempotent. -/
theorem jsTrim_idem (s : String) : jsTrim (jsTrim s) = jsTrim s := by
  show (⟨jsTrimList (jsTrimList s.data)⟩ : String) = ⟨jsTrimList s.data⟩
  rw [jsTrimList_idem]

/-- A string of `n` letters `a` is untouched by trimming. -/
theorem jsTrim_replicate (n : Nat) :
    jsTrim ⟨List.replicate n 'a'⟩ = ⟨List.replicate n 'a'⟩ := by
  have ha : isJsWhitespace 'a' = false := by decide
  show (⟨jsTrimList (List.replicate n 'a')⟩ : String) = _
  unfold jsTrimList
  simp [List.filter_replicate, ha]

/-- The length of a string of `n` letters `a` is `n`. -/
theorem length_replicate_string (n : Nat) :
    (⟨List.replicate n 'a'⟩ : String).length = n := by
  show (List.replicate n 'a').length = n
  simp

/-! ### Helper lemmas about the schema combinators -/

/-- What a successful bounded string check guarantees. -/
theorem zTrimMinMax_ok {lo hi : Nat} {m s t : String}
    (h : zTrimMinMax lo hi m s = .ok t) :
    t = jsTrim s ∧ lo ≤ t.length ∧ t.length ≤ hi := by
  unfold zTrimMinMax at h
  by_cases h1 : (jsTrim s).length < lo
  · simp [h1] at h
  · by_cases h2 : (jsTrim s).length > hi
    · simp [h1, h2] at h
    · simp [h1, h2] at h
      subst h
      exact ⟨rfl, by omega, by omega⟩

/-- A trimmed string within bounds passes the bounded check. -/
theorem zTrimMinMax_eq_ok {lo hi : Nat} {m s : String}
    (h1 : lo ≤ (jsTrim s).length) (h2 : (jsTrim s).length ≤ hi) :
    zTrimMinMax lo hi m s = .ok (jsTrim s) := by
  unfold zTrimMinMax
  have h1n : ¬ (jsTrim s).length < lo := by omega
  have h2n : ¬ (jsTrim s).length > hi := by omega
  simp [h1n, h2n]

/-- What a successful min-only string check guarantees. -/
theorem zTrimMin_ok {lo : Nat} {m s t : String}
    (h : zTrimMin lo m s = .ok t) : t = jsTrim s ∧ lo ≤ t.length := by
  unfold zTrimMin at h
  by_cases h1 : (jsTrim s).length < lo
  · simp [h1] at h
  · simp [h1] at h
    subst h
    exact ⟨rfl, by omega⟩

/-- A trimmed string above the minimum passes the min-only check. -/
theorem zTrimMin_eq_ok {lo : Nat} {m s : String}
    (h1 : lo ≤ (jsTrim s).length) : zTrimMin lo m s = .ok (jsTrim s) := by
  unfold zTrimMin
  have h1n : ¬ (jsTrim s).length < lo := by omega
  simp [h1n]

/-! ### Helper lemmas about the upload loop -/

/-- When no external call fails, the loop finishes without error and
commits one row per file. -/
theorem uploadLoop_noErr (bucket table pathBase : String)
    (mkRow : String → Nat → Payload) (randF : Nat → String)
    {upErr insErr : Nat → Option String}
    (hup : ∀ j, upErr j = none) (hins : ∀ j, insErr j = none) :
    ∀ (files : List FileH) (i0 : Nat),
      (uploadLoop bucket table pathBase mkRow randF upErr insErr files i0).err = none ∧
      (uploadLoop bucket table pathBase mkRow randF upErr insErr files i0).committed.length
        = files.length := by
  intro files
  induction files with
  | nil => intro i0; exact ⟨rfl, rfl⟩
  | cons f fs ih =>
    intro i0
    have h1 := hup i0
    have h2 := hins i0
    have h3 := ih (i0 + 1)
    simp only [uploadLoop, h1, h2, List.length_cons]
    exact ⟨h3.1, by simp [h3.2]⟩

/-- Every row the loop commits at position `k` is the row constructor
applied to some URL and the absolute index `i0 + k`. -/
theorem uploadLoop_committed_getElem {bucket table pathBase : String}
    {mkRow : String → Nat → Payload} {randF : Nat → String}
    {upErr insErr : Nat → Option String} :
    ∀ (files : List FileH) (i0 k : Nat) (row : Payload),
      (uploadLoop bucket table pathBase mkRow randF upErr insErr files i0).committed[k]?
        = some row →
      ∃ u, row = mkRow u (i0 + k) := by
  intro files
  induction files with
  | nil => intro i0 k row h; simp [uploadLoop] at h
  | cons f fs ih =>
    intro i0 k row h
    cases h1 : upErr i0 with
    | some e => simp [uploadLoop, h1] at h
    | none =>
      cases h2 : insErr i0 with
      | some e => simp [uploadLoop, h1, h2] at h
      | none =>
        simp only [uploadLoop, h1, h2] at h
        cases k with
        | zero =>
          simp at h
          refine ⟨getPublicUrl bucket (pathBase ++ randF i0 ++ "." ++ fileExt f.name), ?_⟩
          rw [Nat.add_zero]
          exact h.symm
        | succ k =>
          simp only [List.getElem?_cons_succ] at h
          obtain ⟨u, hu⟩ := ih (i0 + 1) k row h
          have hi : i0 + 1 + k = i0 + (k + 1) := by omega
          exact ⟨u, by rw [hu, hi]⟩

/-- Predicate evaluation on an upload operation. -/
theorem isUpload_upload {b p : String} : (NetOp.storageUpload b p).isUpload = true := rfl

/-- Predicate evaluation on an insert operation. -/
theorem isUpload_insert {t : String} {r : Payload} : (NetOp.dbInsert t r).isUpload = false := rfl

/-- Predicate evaluation on an upload operation. -/
theorem isDbInsert_upload {b p : String} : (NetOp.storageUpload b p).isDbInsert = false := rfl

/-- Predicate evaluation on an insert operation. -/
theorem isDbInsert_insert {t : String} {r : Payload} : (NetOp.dbInsert t r).isDbInsert = true := rfl

/-- Predicate evaluation on an upload operation. -/
theorem isDbDelete_upload {b p : String} : (NetOp.storageUpload b p).isDbDelete = false := rfl

/-- Predicate evaluation on an insert operation. -/
theorem isDbDelete_insert {t : String} {r : Payload} : (NetOp.dbInsert t r).isDbDelete = false := rfl

/-- Predicate evaluation on an upload operation. -/
theorem isStorageRemove_upload {b p : String} : (NetOp.storageUpload b p).isStorageRemove = false := rfl

/-- Predicate evaluation on an insert operation. -/
theorem isStorageRemove_insert {t : String} {r : Payload} : (NetOp.dbInsert t r).isStorageRemove = false := rfl

/-- If the external calls succeed strictly before index `k` and the call
at index `k` fails (either the upload or the insert), the loop stops
with that error, commits exactly the first `k` rows, issues exactly
`k + 1` uploads and at most `k + 1` inserts, and issues no delete and no
storage removal. -/
theorem uploadLoop_fail_at (bucket table pathBase : String)
    (mkRow : String → Nat → Payload) (randF : Nat → String)
    {upErr insErr : Nat → Option String} :
    ∀ (files : List FileH) (i0 k : Nat) (e : String),
      k < files.length →
      (∀ j, j < k → upErr (i0 + j) = none ∧ insErr (i0 + j) = none) →
      (upErr (i0 + k) = some e ∨
        (upErr (i0 + k) = none ∧ insErr (i0 + k) = some e)) →
      (uploadLoop bucket table pathBase mkRow randF upErr insErr files i0).err = some e ∧
      (uploadLoop bucket table pathBase mkRow randF upErr insErr files i0).committed.length = k ∧
      (uploadLoop bucket table pathBase mkRow randF upErr insErr files i0).ops.countP
        (fun op => op.isUpload) = k + 1 ∧
      (uploadLoop bucket table pathBase mkRow randF upErr insErr files i0).ops.countP
        (fun op => op.isDbInsert) ≤ k + 1 ∧
      k ≤ (uploadLoop bucket table pathBase mkRow randF upErr insErr files i0).ops.countP
        (fun op => op.isDbInsert) ∧
      (uploadLoop bucket table pathBase mkRow randF upErr insErr files i0).ops.countP
        (fun op => op.isDbDelete) = 0 ∧
      (uploadLoop bucket table pathBase mkRow randF upErr insErr files i0).ops.countP
        (fun op => op.isStorageRemove) = 0 := by
  intro files
  induction files with
  | nil => intro i0 k e hk _ _; simp at hk
  | cons f fs ih =>
    intro i0 k e hk hok hfail
    cases k with
    | zero =>
      have h0 : i0 + 0 = i0 := by omega
      rw [h0] at hfail
      rcases hfail with hup | ⟨hup, hins⟩
      · simp [uploadLoop, hup, List.countP_cons, isUpload_upload, isDbInsert_upload,
          isDbDelete_upload, isStorageRemove_upload]
      · simp [uploadLoop, hup, hins, List.countP_cons, isUpload_upload, isUpload_insert,
          isDbInsert_upload, isDbInsert_insert, isDbDelete_upload, isDbDelete_insert,
          isStorageRemove_upload, isStorageRemove_insert]
    | succ k =>
      have h0 := hok 0 (by omega)
      have h0u : upErr i0 = none := by
        have : i0 + 0 = i0 := by omega
        rw [this] at h0; exact h0.1
      have h0i : insErr i0 = none := by
        have : i0 + 0 = i0 := by omega
        rw [this] at h0; exact h0.2
      have hok' : ∀ j, j < k → upErr (i0 + 1 + j) = none ∧ insErr (i0 + 1 + j) = none := by
        intro j hj
        have := hok (j + 1) (by omega)
        have he : i0 + (j + 1) = i0 + 1 + j := by omega
        rw [he] at this
        exact this
      have hfail' : upErr (i0 + 1 + k) = some e ∨
          (upErr (i0 + 1 + k) = none ∧ insErr (i0 + 1 + k) = some e) := by
        have he : i0 + (k + 1) = i0 + 1 + k := by omega
        rw [he] at hfail
        exact hfail
      have hkk : k < fs.length := by simp at hk; omega
      obtain ⟨e1, e2, e3, e4, e5, e6, e7⟩ := ih (i0 + 1) k e hkk hok' hfail'
      simp only [uploadLoop, h0u, h0i, List.countP_cons, List.length_cons,
        isUpload_upload, isUpload_insert, isDbInsert_upload, isDbInsert_insert,
        isDbDelete_upload, isDbDelete_insert, isStorageRemove_upload,
        isStorageRemove_insert, if_true, if_false]
      simp only [Bool.false_eq_true, if_true, if_false, eq_self_iff_true, ite_true, ite_false]
      refine ⟨e1, by omega, by omega, by omega, by omega, by omega, by omega⟩

/-! ### Helper lemmas about `rowsFor` -/

/-- `rowsFor` on a row of the same table. -/
theorem rowsFor_cons_self {t : String} {r : Payload} {c : List (String × Payload)} :
    rowsFor t ((t, r) :: c) = r :: rowsFor t c := by
  simp [rowsFor, List.filter_cons]

/-- `rowsFor` on a row of another table. -/
theorem rowsFor_cons_ne {t t' : String} {r : Payload} {c : List (String × Payload)}
    (h : t' ≠ t) : rowsFor t ((t', r) :: c) = rowsFor t c := by
  simp [rowsFor, List.filter_cons, h]

/-- `rowsFor` distributes over append. -/
theorem rowsFor_append {t : String} {c1 c2 : List (String × Payload)} :
    rowsFor t (c1 ++ c2) = rowsFor t c1 ++ rowsFor t c2 := by
  simp [rowsFor, List.filter_append]

/-- `rowsFor` recovers a same-table tagging. -/
theorem rowsFor_map_self {t : String} {l : List Payload} :
    rowsFor t (l.map (fun r => (t, r))) = l := by
  induction l with
  | nil => rfl
  | cons r rs ih => simp [List.map_cons, rowsFor_cons_self, ih]

/-- `rowsFor` drops an other-table tagging. -/
theorem rowsFor_map_ne {t t' : String} {l : List Payload} (h : t' ≠ t) :
    rowsFor t (l.map (fun r => (t', r))) = [] := by
  induction l with
  | nil => rfl
  | cons r rs ih => simp [List.map_cons, rowsFor_cons_ne h, ih]

/-- When no external call fails, mapping an observation over the
committed rows yields the observation of the row constructor at each
index `i0, i0+1, ...` in order. -/
theorem uploadLoop_committed_map (bucket table pathBase : String)
    (mkRow : String → Nat → Payload) (randF : Nat → String)
    {upErr insErr : Nat → Option String} {β : Type} (g : Payload → β)
    (expected : Nat → β) (hmk : ∀ u i, g (mkRow u i) = expected i)
    (hup : ∀ j, upErr j = none) (hins : ∀ j, insErr j = none) :
    ∀ (files : List FileH) (i0 : Nat),
      ((uploadLoop bucket table pathBase mkRow randF upErr insErr files i0).committed).map g
        = (List.range files.length).map (fun k => expected (i0 + k)) := by
  intro files
  induction files with
  | nil => intro i0; rfl
  | cons f fs ih =>
    intro i0
    simp only [uploadLoop, hup i0, hins i0, List.map_cons, List.length_cons]
    rw [List.range_succ_eq_map]
    simp only [List.map_cons, List.map_map]
    refine congrArg₂ _ ?_ ?_
    · rw [hmk]
      have h0 : i0 + 0 = i0 := by omega
      rw [h0]
    · rw [ih (i0 + 1)]
      refine List.map_congr_left (fun a _ => ?_)
      simp only [Function.comp]
      have he : i0 + 1 + a = i0 + a.succ := by omega
      rw [he]

/-! ### Field lookups on the inserted rows -/

/-- `project_images` rows carry the loop index as `display_order`. -/
theorem lookup_projectImage_display (pid u : String) (i : Nat) :
    List.lookup "display_order" (mkProjectImageRow pid u i) = some (.int (i : Int)) := rfl

/-- `project_images` rows carry `is_primary` iff the index is `0`. -/
theorem lookup_projectImage_primary (pid u : String) (i : Nat) :
    List.lookup "is_primary" (mkProjectImageRow pid u i) = some (.bool (i == 0)) := rfl

/-- `project_videos` rows carry the loop index as `display_order`. -/
theorem lookup_projectVideo_display (pid u : String) (i : Nat) :
    List.lookup "display_order" (mkProjectVideoRow pid u i) = some (.int (i : Int)) := rfl

/-- `service_images` rows carry the loop index as `display_order`. -/
theorem lookup_serviceImage_display (sid u : String) (i : Nat) :
    List.lookup "display_order" (mkServiceImageRow sid u i) = some (.int (i : Int)) := rfl

/-- `service_images` rows carry `is_primary` iff the index is `0`. -/
theorem lookup_serviceImage_primary (sid u : String) (i : Nat) :
    List.lookup "is_primary" (mkServiceImageRow sid u i) = some (.bool (i == 0)) := rfl

/-- `service_videos` rows carry the loop index as `display_order`. -/
theorem lookup_serviceVideo_display (sid u : String) (i : Nat) :
    List.lookup "display_order" (mkServiceVideoRow sid u i) = some (.int (i : Int)) := rfl

/-- Gallery image rows have no `display_order` field at all. -/
theorem lookup_galleryImage_display (v : GalleryParsed) (u : String) (i : Nat) :
    List.lookup "display_order" (mkGalleryImageRow v u i) = none := rfl

/-- Gallery video rows have no `display_order` field at all. -/
theorem lookup_galleryVideo_display (v : GalleryParsed) (url : String) :
    List.lookup "display_order" (galleryVideoRow v url) = none := rfl

/-- An optional trimmed-bounded field accepts the (already trimmed)
present-or-absent value produced by the handlers. -/
theorem zOptional_optStr {hi : Nat} {m s : String}
    (h : (jsTrim s).length ≤ hi) :
    zOptional (zTrimMinMax 0 hi m) (optStr (jsTrim s)) = .ok (optStr (jsTrim s)) := by
  unfold optStr
  by_cases hc : jsTrim s = ""
  · simp [hc, zOptional]
  · simp only [hc, if_neg, ite_false, zOptional]
    have hb : (jsTrim (jsTrim s)).length ≤ hi := by rw [jsTrim_idem]; exact h
    rw [zTrimMinMax_eq_ok (Nat.zero_le _) hb, jsTrim_idem]

/-! ### Claim theorems -/

/-- C1: every successful project creation with `N` selected images
inserts exactly `N` `project_images` rows, with `is_primary` true on
exactly the row for index `0` and `display_order` equal to the index,
strictly increasing `0..N-1` in insertion order. -/
theorem claim1_project_image_rows (currentYear : Int) (env : ProjectEnv)
    (form : ProjectForm) (projects0 : List Payload) (v : ProjectParsed) (pid : String)
    (hparse : projectSchemaParse currentYear
      ⟨jsTrim form.title, jsTrim form.description, jsTrim form.category,
       optStr (jsTrim form.location), form.yearCompleted⟩ = .ok v)
    (hins : env.insertProjectResult = .ok pid)
    (hiu : ∀ j, env.imageUploadErr j = none)
    (hii : ∀ j, env.imageInsertErr j = none)
    (hvu : ∀ j, env.videoUploadErr j = none)
    (hvi : ∀ j, env.videoInsertErr j = none) :
    (handleSubmit currentYear env form projects0).successToast = true ∧
    (rowsFor "project_images" (handleSubmit currentYear env form projects0).committed).length
      = form.images.length ∧
    (rowsFor "project_images" (handleSubmit currentYear env form projects0).committed).map
        (fun r => (List.lookup "display_order" r, List.lookup "is_primary" r))
      = (List.range form.images.length).map
          (fun k => (some (DbVal.int (Int.ofNat k)), some (DbVal.bool (k == 0)))) := by
  have himg := uploadLoop_noErr "project-images" "project_images"
      (pid ++ "/") (mkProjectImageRow pid) (env.imageRand)
    hiu hii form.images 0
  have hvid := uploadLoop_noErr "project-images" "project_videos"
      (pid ++ "/") (mkProjectVideoRow pid) (env.videoRand)
    hvu hvi form.videos 0
  have hmap := uploadLoop_committed_map "project-images" "project_images"
      (pid ++ "/") (mkProjectImageRow pid) (env.imageRand)
    (fun r => (List.lookup "display_order" r, List.lookup "is_primary" r))
    (fun k => (some (DbVal.int (Int.ofNat k)), some (DbVal.bool (k == 0))))
    (fun u i => rfl) hiu hii form.images 0
  simp only [handleSubmit, hparse, hins, himg.1, hvid.1]
  have hne1 : "projects" ≠ "project_images" := by decide
  have hne2 : "project_videos" ≠ "project_images" := by decide
  refine ⟨trivial, ?_, ?_⟩
  · simp only [rowsFor_append, rowsFor_cons_ne hne1, rowsFor_map_self,
      rowsFor_map_ne hne2, List.append_nil]
    exact himg.2
  · simp only [rowsFor_append, rowsFor_cons_ne hne1, rowsFor_map_self,
      rowsFor_map_ne hne2, List.append_nil]
    rw [hmap]
    simp only [Nat.zero_add]

/-- C3: a project submission whose trimmed description is longer than
2000 characters is rejected by validation; the handler issues no
network operation, commits nothing, shows an error notice, and leaves
the in-memory project list unchanged. -/
theorem claim3_long_description_rejected (currentYear : Int) (env : ProjectEnv)
    (form : ProjectForm) (projects0 : List Payload)
    (hlen : (jsTrim form.description).length > 2000) :
    (handleSubmit currentYear env form projects0).ops = [] ∧
    (handleSubmit currentYear env form projects0).committed = [] ∧
    (handleSubmit currentYear env form projects0).successToast = false ∧
    (handleSubmit currentYear env form projects0).errorMsg.isSome = true ∧
    (handleSubmit currentYear env form projects0).listAfter = projects0 := by
  cases hp : projectSchemaParse currentYear
      ⟨jsTrim form.title, jsTrim form.description, jsTrim form.category,
       optStr (jsTrim form.location), form.yearCompleted⟩ with
  | error e =>
    unfold handleSubmit
    rw [hp]
    exact ⟨rfl, rfl, rfl, rfl, rfl⟩
  | ok v =>
    exfalso
    unfold projectSchemaParse at hp
    split at hp
    · exact absurd hp (by simp)
    · split at hp
      · exact absurd hp (by simp)
      · rename_i d hd
        have h1 := (zTrimMinMax_ok hd).1
        have h2 := (zTrimMinMax_ok hd).2.2
        rw [h1] at h2
        dsimp only at h2
        rw [jsTrim_idem] at h2
        omega

/-- C5: a confirmed gallery-item deletion issues the database delete of
the gallery row on every path: whatever the storage removal's outcome,
and whether or not the item has an image URL. -/
theorem claim5_gallery_delete_always (env : DeleteEnv) (id : String)
    (imageUrl : Option String) (items0 : List Payload) :
    NetOp.dbDelete "gallery" id ∈ (deleteGalleryItem env true id imageUrl items0).ops := by
  unfold deleteGalleryItem
  cases henv : env.deleteErr <;> simp

/-- C2: if the upload or insert for the gallery file at index `k`
fails, the rows for indices `0..k-1` stay committed (no rollback, no
compensating delete), nothing is attempted past index `k` (exactly
`k + 1` uploads and at most `k + 1` inserts are issued), an error
notice is shown, and the in-memory list is untouched. -/
theorem claim2_gallery_failfast (env : GalleryEnv) (form : GalleryForm)
    (items0 : List Payload) (submitting0 : Bool) (k : Nat) (e : String)
    (v : GalleryParsed)
    (hmt : form.mediaType = "image")
    (hk : k < form.images.length)
    (hok : ∀ j, j < k → env.uploadErr j = none ∧ env.insertErr j = none)
    (hfail : env.uploadErr k = some e ∨
      (env.uploadErr k = none ∧ env.insertErr k = some e))
    (hparse : gallerySchemaParse
      ⟨optStr (jsTrim form.title), optStr (jsTrim form.description),
       form.category⟩ = .ok v) :
    (handleGallerySubmit env form items0 submitting0).committed.length = k ∧
    (handleGallerySubmit env form items0 submitting0).ops.countP
      (fun op => op.isUpload) = k + 1 ∧
    (handleGallerySubmit env form items0 submitting0).ops.countP
      (fun op => op.isDbInsert) ≤ k + 1 ∧
    (handleGallerySubmit env form items0 submitting0).ops.countP
      (fun op => op.isDbDelete) = 0 ∧
    (handleGallerySubmit env form items0 submitting0).ops.countP
      (fun op => op.isStorageRemove) = 0 ∧
    (handleGallerySubmit env form items0 submitting0).errorMsg = some e ∧
    (handleGallerySubmit env form items0 submitting0).successToast = false ∧
    (handleGallerySubmit env form items0 submitting0).listAfter = items0 := by
  have hok' : ∀ j, j < k → env.uploadErr (0 + j) = none ∧ env.insertErr (0 + j) = none := by
    intro j hj
    rw [Nat.zero_add]
    exact hok j hj
  have hfail' : env.uploadErr (0 + k) = some e ∨
      (env.uploadErr (0 + k) = none ∧ env.insertErr (0 + k) = some e) := by
    rw [Nat.zero_add]
    exact hfail
  have hfl := uploadLoop_fail_at "gallery-images" "gallery"
      ("") (mkGalleryImageRow v) (env.rand)
    form.images 0 k e hk hok' hfail'
  have hg1 : ¬ (form.mediaType = "image" ∧ form.images.length = 0) := by
    rintro ⟨_, h0⟩
    omega
  have hg2 : ¬ (form.mediaType = "video" ∧ jsTrim form.videoUrl = "") := by
    rintro ⟨hv, _⟩
    rw [hmt] at hv
    exact absurd hv (by decide)
  simp only [handleGallerySubmit, if_neg hg1, if_neg hg2, hparse, if_pos hmt, hfl.1]
  refine ⟨?_, hfl.2.2.1, hfl.2.2.2.1, hfl.2.2.2.2.2.1, hfl.2.2.2.2.2.2, trivial, trivial, trivial⟩
  simp [hfl.2.1]

/-- C4 counterexample: the confirmed project delete issues only the
database delete and the refresh; no storage removal is ever attempted,
contradicting the claim that every collection's delete first attempts
removal of the entity's stored file. -/
theorem claim4_counterexample :
    (deleteProject ⟨none, none, .ok []⟩ true "p1" []).ops
      = [NetOp.dbDelete "projects" "p1", NetOp.dbSelect "projects"] ∧
    (deleteProject ⟨none, none, .ok []⟩ true "p1" []).ops.countP
      (fun op => op.isStorageRemove) = 0 :=
  ⟨rfl, rfl⟩

/-- C4 amended: only the gallery delete attempts best-effort removal of
the stored file (named by the last URL path segment) before the
database delete, and issues the database delete regardless of the
removal's outcome; the project and service deletes issue the database
delete without attempting any storage removal. -/
theorem claim4_amended :
    (∀ (env : DeleteEnv) (id url : String) (items0 : List Payload),
      (lastSegment url ≠ "" →
        (deleteGalleryItem env true id (some url) items0).ops.head? =
          some (NetOp.storageRemove "gallery-images" [lastSegment url])) ∧
      NetOp.dbDelete "gallery" id ∈ (deleteGalleryItem env true id (some url) items0).ops) ∧
    (∀ (env : DeleteEnv) (id : String) (items0 : List Payload),
      NetOp.dbDelete "projects" id ∈ (deleteProject env true id items0).ops ∧
      (deleteProject env true id items0).ops.countP (fun op => op.isStorageRemove) = 0) ∧
    (∀ (env : DeleteEnv) (id : String) (items0 : List Payload),
      NetOp.dbDelete "services" id ∈ (deleteService env true id items0).ops ∧
      (deleteService env true id items0).ops.countP (fun op => op.isStorageRemove) = 0) := by
  refine ⟨?_, ?_, ?_⟩
  · intro env id url items0
    constructor
    · intro hfp
      unfold deleteGalleryItem
      cases hde : env.deleteErr <;> simp [hde, if_neg hfp]
    · unfold deleteGalleryItem
      cases hde : env.deleteErr <;>
        cases hif : (if lastSegment url = "" then ([] : List NetOp)
            else [NetOp.storageRemove "gallery-images" [lastSegment url]]) <;>
        simp_all
  · intro env id items0
    unfold deleteProject
    cases hde : env.deleteErr <;>
      simp [hde, List.countP_cons, NetOp.isStorageRemove]
  · intro env id items0
    unfold deleteService
    cases hde : env.deleteErr <;>
      simp [hde, List.countP_cons, NetOp.isStorageRemove]

/-- C6: a service submission whose slug duplicates an existing
service's slug is not rejected by local schema validation (the schema
checks only the submitted record's own fields); the submission proceeds
to the backend insert, and whatever error the backend returns is
surfaced as the error notice. -/
theorem claim6_slug_not_checked_locally (env : ServiceEnv) (form : ServiceForm)
    (services0 : List Payload) (existingSlugs : List String) (e : String)
    (hedit : form.editing = none)
    (hdup : jsTrim form.slug ∈ existingSlugs)
    (ht1 : 1 ≤ (jsTrim form.title).length) (ht2 : (jsTrim form.title).length ≤ 200)
    (hs1 : 1 ≤ (jsTrim form.slug).length) (hs2 : (jsTrim form.slug).length ≤ 200)
    (hsd : (jsTrim form.shortDesc).length ≤ 500)
    (hd1 : 1 ≤ (jsTrim form.description).length)
    (hic : (jsTrim form.icon).length ≤ 100)
    (hins : env.insertServiceResult = .error e) :
    ∃ v, serviceSchemaParse
        ⟨jsTrim form.title, jsTrim form.slug, optStr (jsTrim form.shortDesc),
         jsTrim form.description, optStr (jsTrim form.icon)⟩ = .ok v ∧
      (handleServiceSubmit env form services0).ops
        = [NetOp.dbInsert "services" (serviceDataOf v)] ∧
      (handleServiceSubmit env form services0).errorMsg = some e ∧
      (handleServiceSubmit env form services0).successToast = false ∧
      (handleServiceSubmit env form services0).committed = [] := by
  have h1 : zTrimMinMax 1 200 "Title is required" (jsTrim form.title)
      = .ok (jsTrim form.title) := by
    have ha : 1 ≤ (jsTrim (jsTrim form.title)).length := by rw [jsTrim_idem]; exact ht1
    have hb : (jsTrim (jsTrim form.title)).length ≤ 200 := by rw [jsTrim_idem]; exact ht2
    rw [zTrimMinMax_eq_ok ha hb, jsTrim_idem]
  have h2 : zTrimMinMax 1 200 "Slug is required" (jsTrim form.slug)
      = .ok (jsTrim form.slug) := by
    have ha : 1 ≤ (jsTrim (jsTrim form.slug)).length := by rw [jsTrim_idem]; exact hs1
    have hb : (jsTrim (jsTrim form.slug)).length ≤ 200 := by rw [jsTrim_idem]; exact hs2
    rw [zTrimMinMax_eq_ok ha hb, jsTrim_idem]
  have h3 := zOptional_optStr (m := "") hsd
  have h4 : zTrimMin 1 "Description is required" (jsTrim form.description)
      = .ok (jsTrim form.description) := by
    have ha : 1 ≤ (jsTrim (jsTrim form.description)).length := by
      rw [jsTrim_idem]; exact hd1
    rw [zTrimMin_eq_ok ha, jsTrim_idem]
  have h5 := zOptional_optStr (m := "") hic
  have hparse : serviceSchemaParse
      ⟨jsTrim form.title, jsTrim form.slug, optStr (jsTrim form.shortDesc),
       jsTrim form.description, optStr (jsTrim form.icon)⟩
      = .ok ⟨jsTrim form.title, jsTrim form.slug, optStr (jsTrim form.shortDesc),
             jsTrim form.description, optStr (jsTrim form.icon)⟩ := by
    simp only [serviceSchemaParse, h1, h2, h3, h4, h5]
  refine ⟨_, hparse, ?_, ?_, ?_, ?_⟩ <;>
    simp only [handleServiceSubmit, hparse, hedit, hins]

/-- C7 counterexample: a successful gallery batch of two images
commits two `gallery` rows, and neither carries any `display_order`
field — the insert payload omits it — contradicting the claim that each
gallery row records its index as `display_order`. -/
theorem claim7_counterexample :
    ((handleGallerySubmit
        ⟨fun _ => "r", fun _ => none, fun _ => none, none, .ok []⟩
        ⟨"image", [⟨"a.jpg"⟩, ⟨"b.jpg"⟩], "", "", "", "team"⟩ [] false).committed).map
      (fun tp => List.lookup "display_order" tp.2) = [none, none] := by
  decide

/-- C7 amended: in the project and service media batches the row
inserted for the file at index `i` records `i` as `display_order`, and
the image rows record `is_primary` true exactly at index `0`; the
gallery image rows are inserted without any `display_order` field. -/
theorem claim7_amended :
    (∀ (cy : Int) (env : ProjectEnv) (form : ProjectForm) (ps0 : List Payload)
       (v : ProjectParsed) (pid : String),
      projectSchemaParse cy
        ⟨jsTrim form.title, jsTrim form.description, jsTrim form.category,
         optStr (jsTrim form.location), form.yearCompleted⟩ = .ok v →
      env.insertProjectResult = .ok pid →
      (∀ j, env.imageUploadErr j = none) → (∀ j, env.imageInsertErr j = none) →
      (∀ j, env.videoUploadErr j = none) → (∀ j, env.videoInsertErr j = none) →
      (rowsFor "project_images" (handleSubmit cy env form ps0).committed).map
          (fun r => (List.lookup "display_order" r, List.lookup "is_primary" r))
        = (List.range form.images.length).map
            (fun k => (some (DbVal.int (Int.ofNat k)), some (DbVal.bool (k == 0)))) ∧
      (rowsFor "project_videos" (handleSubmit cy env form ps0).committed).map
          (fun r => List.lookup "display_order" r)
        = (List.range form.videos.length).map
            (fun k => some (DbVal.int (Int.ofNat k)))) ∧
    (∀ (env : ServiceEnv) (form : ServiceForm) (ss0 : List Payload)
       (v : ServiceParsed) (sid : String),
      serviceSchemaParse
        ⟨jsTrim form.title, jsTrim form.slug, optStr (jsTrim form.shortDesc),
         jsTrim form.description, optStr (jsTrim form.icon)⟩ = .ok v →
      form.editing = none →
      env.insertServiceResult = .ok sid →
      (∀ j, env.imageUploadErr j = none) → (∀ j, env.imageInsertErr j = none) →
      (∀ j, env.videoUploadErr j = none) → (∀ j, env.videoInsertErr j = none) →
      (rowsFor "service_images" (handleServiceSubmit env form ss0).committed).map
          (fun r => (List.lookup "display_order" r, List.lookup "is_primary" r))
        = (List.range form.images.length).map
            (fun k => (some (DbVal.int (Int.ofNat k)), some (DbVal.bool (k == 0)))) ∧
      (rowsFor "service_videos" (handleServiceSubmit env form ss0).committed).map
          (fun r => List.lookup "display_order" r)
        = (List.range form.videos.length).map
            (fun k => some (DbVal.int (Int.ofNat k)))) ∧
    (∀ (env : GalleryEnv) (form : GalleryForm) (it0 : List Payload)
       (sub0 : Bool) (v : GalleryParsed),
      form.mediaType = "image" →
      form.images.length ≠ 0 →
      gallerySchemaParse
        ⟨optStr (jsTrim form.title), optStr (jsTrim form.description),
         form.category⟩ = .ok v →
      (∀ j, env.uploadErr j = none) → (∀ j, env.insertErr j = none) →
      (rowsFor "gallery" (handleGallerySubmit env form it0 sub0).committed).map
          (fun r => List.lookup "display_order" r)
        = List.replicate form.images.length none) := by
  refine ⟨?_, ?_, ?_⟩
  · intro cy env form ps0 v pid hparse hins hiu hii hvu hvi
    have himg := uploadLoop_noErr "project-images" "project_images"
      (pid ++ "/") (mkProjectImageRow pid) (env.imageRand)
      hiu hii form.images 0
    have hvid := uploadLoop_noErr "project-images" "project_videos"
      (pid ++ "/") (mkProjectVideoRow pid) (env.videoRand)
      hvu hvi form.videos 0
    have hmapI := uploadLoop_committed_map "project-images" "project_images"
      (pid ++ "/") (mkProjectImageRow pid) (env.imageRand)
      (fun r => (List.lookup "display_order" r, List.lookup "is_primary" r))
      (fun k => (some (DbVal.int (Int.ofNat k)), some (DbVal.bool (k == 0))))
      (fun u i => rfl) hiu hii form.images 0
    have hmapV := uploadLoop_committed_map "project-images" "project_videos"
      (pid ++ "/") (mkProjectVideoRow pid) (env.videoRand)
      (fun r => List.lookup "display_order" r)
      (fun k => some (DbVal.int (Int.ofNat k)))
      (fun u i => rfl) hvu hvi form.videos 0
    have hne1 : "projects" ≠ "project_images" := by decide
    have hne2 : "project_videos" ≠ "project_images" := by decide
    have hne3 : "projects" ≠ "project_videos" := by decide
    have hne4 : "project_images" ≠ "project_videos" := by decide
    simp only [handleSubmit, hparse, hins, himg.1, hvid.1]
    constructor
    · simp only [rowsFor_append, rowsFor_cons_ne hne1, rowsFor_map_self,
        rowsFor_map_ne hne2, List.append_nil]
      rw [hmapI]
      simp only [Nat.zero_add]
    · simp only [rowsFor_append, rowsFor_cons_ne hne3, rowsFor_map_self,
        rowsFor_map_ne hne4, List.nil_append]
      rw [hmapV]
      simp only [Nat.zero_add]
  · intro env form ss0 v sid hparse hedit hins hiu hii hvu hvi
    have himg := uploadLoop_noErr "service-images" "service_images"
      (sid ++ "/") (mkServiceImageRow sid) (env.imageRand)
      hiu hii form.images 0
    have hvid := uploadLoop_noErr "service-images" "service_videos"
      (sid ++ "/") (mkServiceVideoRow sid) (env.videoRand)
      hvu hvi form.videos 0
    have hmapI := uploadLoop_committed_map "service-images" "service_images"
      (sid ++ "/") (mkServiceImageRow sid) (env.imageRand)
      (fun r => (List.lookup "display_order" r, List.lookup "is_primary" r))
      (fun k => (some (DbVal.int (Int.ofNat k)), some (DbVal.bool (k == 0))))
      (fun u i => rfl) hiu hii form.images 0
    have hmapV := uploadLoop_committed_map "service-images" "service_videos"
      (sid ++ "/") (mkServiceVideoRow sid) (env.videoRand)
      (fun r => List.lookup "display_order" r)
      (fun k => some (DbVal.int (Int.ofNat k)))
      (fun u i => rfl) hvu hvi form.videos 0
    have hne1 : "services" ≠ "service_images" := by decide
    have hne2 : "service_videos" ≠ "service_images" := by decide
    have hne3 : "services" ≠ "service_videos" := by decide
    have hne4 : "service_images" ≠ "service_videos" := by decide
    simp only [handleServiceSubmit, hparse, hedit, hins, himg.1, hvid.1]
    constructor
    · simp only [rowsFor_append, rowsFor_cons_ne hne1, rowsFor_map_self,
        rowsFor_map_ne hne2, List.append_nil]
      rw [hmapI]
      simp only [Nat.zero_add]
    · simp only [rowsFor_append, rowsFor_cons_ne hne3, rowsFor_map_self,
        rowsFor_map_ne hne4, List.nil_append]
      rw [hmapV]
      simp only [Nat.zero_add]
  · intro env form it0 sub0 v hmt hne hparse hiu hii
    have hloop := uploadLoop_noErr "gallery-images" "gallery"
      ("") (mkGalleryImageRow v) (env.rand)
      hiu hii form.images 0
    have hmap := uploadLoop_committed_map "gallery-images" "gallery"
      ("") (mkGalleryImageRow v) (env.rand)
      (fun r => List.lookup "display_order" r)
      (fun _ => (none : Option DbVal))
      (fun u i => rfl) hiu hii form.images 0
    have hg1 : ¬ (form.mediaType = "image" ∧ form.images.length = 0) := by
      rintro ⟨_, h0⟩
      omega
    have hg2 : ¬ (form.mediaType = "video" ∧ jsTrim form.videoUrl = "") := by
      rintro ⟨hv, _⟩
      rw [hmt] at hv
      exact absurd hv (by decide)
    simp only [handleGallerySubmit, if_neg hg1, if_neg hg2, hparse, if_pos hmt, hloop.1]
    rw [rowsFor_map_self, hmap]
    rw [List.map_const']
    simp

/-- What a successful optional bounded check guarantees. -/
theorem zOptional_bounds {hi : Nat} {m : String} {o r : Option String}
    (h : zOptional (zTrimMinMax 0 hi m) o = .ok r) :
    (o = none → r = none) ∧
    (∀ s, o = some s → r = some (jsTrim s) ∧ (jsTrim s).length ≤ hi) := by
  cases o with
  | none =>
    simp only [zOptional] at h
    injection h with h
    exact ⟨fun _ => h.symm, fun s hs => by simp at hs⟩
  | some s0 =>
    simp only [zOptional] at h
    cases hf : zTrimMinMax 0 hi m s0 with
    | error e =>
      rw [hf] at h
      exact absurd h (by simp)
    | ok t =>
      rw [hf] at h
      injection h with h
      obtain ⟨ht, _, hb⟩ := zTrimMinMax_ok hf
      refine ⟨fun hno => by simp at hno, fun s hs => ?_⟩
      injection hs with hs
      subst hs
      subst ht
      exact ⟨h.symm, hb⟩

/-- The service schema accepts a description of `n` letters `a` for any
positive `n` (it has no maximum bound). -/
theorem serviceSchemaParse_replicate (n : Nat) (hn : 1 ≤ n) :
    serviceSchemaParse ⟨"t", "s", none, ⟨List.replicate n 'a'⟩, none⟩
      = .ok ⟨"t", "s", none, ⟨List.replicate n 'a'⟩, none⟩ := by
  have hd : zTrimMin 1 "Description is required" (⟨List.replicate n 'a'⟩ : String)
      = .ok ⟨List.replicate n 'a'⟩ := by
    have h1 : (1 : Nat) ≤ (jsTrim ⟨List.replicate n 'a'⟩).length := by
      rw [jsTrim_replicate, length_replicate_string]
      omega
    rw [zTrimMin_eq_ok h1, jsTrim_replicate]
  have h1 : zTrimMinMax 1 200 "Title is required" "t" = .ok "t" := rfl
  have h2 : zTrimMinMax 1 200 "Slug is required" "s" = .ok "s" := rfl
  simp only [serviceSchemaParse, h1, h2, hd, zOptional]

/-- C8 counterexample: no finite bound `M` caps the accepted service
description — for every `M` the schema accepts a description of length
`M + 1` — so not every string field is bounded by a maximum length. -/
theorem claim8_counterexample :
    ¬ ∃ M : Nat, ∀ (i : ServiceInput) (v : ServiceParsed),
        serviceSchemaParse i = .ok v → v.description.length ≤ M := by
  rintro ⟨M, hM⟩
  have hparse := serviceSchemaParse_replicate (M + 1) (by omega)
  have hlen := hM _ _ hparse
  dsimp only at hlen
  rw [length_replicate_string] at hlen
  omega

/-- C8 amended: every string field of the three schemas is trimmed, and
every string field is bounded by a maximum length except the service
description, which has only the minimum bound — for it no finite
maximum exists. -/
theorem claim8_amended :
    (∀ (cy : Int) (i : ProjectInput) (v : ProjectParsed),
      projectSchemaParse cy i = .ok v →
      v.title = jsTrim i.title ∧ 1 ≤ v.title.length ∧ v.title.length ≤ 200 ∧
      v.description = jsTrim i.description ∧ 1 ≤ v.description.length ∧
        v.description.length ≤ 2000 ∧
      v.category = jsTrim i.category ∧ 1 ≤ v.category.length ∧
        v.category.length ≤ 100 ∧
      (∀ s, i.location = some s →
        v.location = some (jsTrim s) ∧ (jsTrim s).length ≤ 200) ∧
      (i.location = none → v.location = none)) ∧
    (∀ (i : ServiceInput) (v : ServiceParsed),
      serviceSchemaParse i = .ok v →
      v.title = jsTrim i.title ∧ 1 ≤ v.title.length ∧ v.title.length ≤ 200 ∧
      v.slug = jsTrim i.slug ∧ 1 ≤ v.slug.length ∧ v.slug.length ≤ 200 ∧
      (∀ s, i.short_description = some s →
        v.short_description = some (jsTrim s) ∧ (jsTrim s).length ≤ 500) ∧
      v.description = jsTrim i.description ∧ 1 ≤ v.description.length ∧
      (∀ s, i.icon = some s → v.icon = some (jsTrim s) ∧ (jsTrim s).length ≤ 100)) ∧
    (∀ (i : GalleryInput) (v : GalleryParsed),
      gallerySchemaParse i = .ok v →
      (∀ s, i.title = some s → v.title = some (jsTrim s) ∧ (jsTrim s).length ≤ 200) ∧
      (∀ s, i.description = some s →
        v.description = some (jsTrim s) ∧ (jsTrim s).length ≤ 500) ∧
      v.category = jsTrim i.category ∧ 1 ≤ v.category.length ∧
        v.category.length ≤ 100) ∧
    (∀ M : Nat, ∃ (i : ServiceInput) (v : ServiceParsed),
      serviceSchemaParse i = .ok v ∧ v.description.length > M) := by
  refine ⟨?_, ?_, ?_, ?_⟩
  · intro cy i v h
    unfold projectSchemaParse at h
    cases h1 : zTrimMinMax 1 200 "Title is required" i.title with
    | error e => rw [h1] at h; exact absurd h (by simp)
    | ok t =>
    rw [h1] at h
    cases h2 : zTrimMinMax 1 2000 "Description is required" i.description with
    | error e => rw [h2] at h; exact absurd h (by simp)
    | ok d =>
    rw [h2] at h
    cases h3 : zTrimMinMax 1 100 "Category is required" i.category with
    | error e => rw [h3] at h; exact absurd h (by simp)
    | ok c =>
    rw [h3] at h
    cases h4 : zOptional (zTrimMinMax 0 200 "") i.location with
    | error e => rw [h4] at h; exact absurd h (by simp)
    | ok l =>
    rw [h4] at h
    cases h5 : zYear cy i.year_completed with
    | error e => rw [h5] at h; exact absurd h (by simp)
    | ok y =>
    rw [h5] at h
    injection h with h
    subst h
    obtain ⟨ht, ht1, ht2⟩ := zTrimMinMax_ok h1
    obtain ⟨hd, hd1, hd2⟩ := zTrimMinMax_ok h2
    obtain ⟨hc, hc1, hc2⟩ := zTrimMinMax_ok h3
    obtain ⟨hl1, hl2⟩ := zOptional_bounds h4
    exact ⟨ht, ht1, ht2, hd, hd1, hd2, hc, hc1, hc2, hl2, hl1⟩
  · intro i v h
    unfold serviceSchemaParse at h
    cases h1 : zTrimMinMax 1 200 "Title is required" i.title with
    | error e => rw [h1] at h; exact absurd h (by simp)
    | ok t =>
    rw [h1] at h
    cases h2 : zTrimMinMax 1 200 "Slug is required" i.slug with
    | error e => rw [h2] at h; exact absurd h (by simp)
    | ok sl =>
    rw [h2] at h
    cases h3 : zOptional (zTrimMinMax 0 500 "") i.short_description with
    | error e => rw [h3] at h; exact absurd h (by simp)
    | ok sd =>
    rw [h3] at h
    cases h4 : zTrimMin 1 "Description is required" i.description with
    | error e => rw [h4] at h; exact absurd h (by simp)
    | ok d =>
    rw [h4] at h
    cases h5 : zOptional (zTrimMinMax 0 100 "") i.icon with
    | error e => rw [h5] at h; exact absurd h (by simp)
    | ok ic =>
    rw [h5] at h
    injection h with h
    subst h
    obtain ⟨ht, ht1, ht2⟩ := zTrimMinMax_ok h1
    obtain ⟨hs, hs1, hs2⟩ := zTrimMinMax_ok h2
    obtain ⟨_, hsd⟩ := zOptional_bounds h3
    obtain ⟨hd, hd1⟩ := zTrimMin_ok h4
    obtain ⟨_, hic⟩ := zOptional_bounds h5
    exact ⟨ht, ht1, ht2, hs, hs1, hs2, hsd, hd, hd1, hic⟩
  · intro i v h
    unfold gallerySchemaParse at h
    cases h1 : zOptional (zTrimMinMax 0 200 "") i.title with
    | error e => rw [h1] at h; exact absurd h (by simp)
    | ok t =>
    rw [h1] at h
    cases h2 : zOptional (zTrimMinMax 0 500 "") i.description with
    | error e => rw [h2] at h; exact absurd h (by simp)
    | ok d =>
    rw [h2] at h
    cases h3 : zTrimMinMax 1 100 "Category is required" i.category with
    | error e => rw [h3] at h; exact absurd h (by simp)
    | ok c =>
    rw [h3] at h
    injection h with h
    subst h
    obtain ⟨_, ht⟩ := zOptional_bounds h1
    obtain ⟨_, hd⟩ := zOptional_bounds h2
    obtain ⟨hc, hc1, hc2⟩ := zTrimMinMax_ok h3
    exact ⟨ht, hd, hc, hc1, hc2⟩
  · intro M
    refine ⟨⟨"t", "s", none, ⟨List.replicate (M + 1) 'a'⟩, none⟩,
      ⟨"t", "s", none, ⟨List.replicate (M + 1) 'a'⟩, none⟩,
      serviceSchemaParse_replicate (M + 1) (by omega), ?_⟩
    dsimp only
    rw [length_replicate_string]
    omega

/-- C9: canceling a Service edit resets every service form field
(editing id, title, slug, short description, description, icon,
selected images) to its empty default, issues no network operation and
leaves the in-memory services list unchanged. -/
theorem claim9_cancel_edit_resets (s : ServiceFormState) (services : List Payload) :
    cancelEditService s services = (⟨none, "", "", "", "", "", []⟩, services, []) := rfl

/-- C10: each of the three submission handlers finishes every run —
validation rejection, backend or upload failure, or success — with its
`submitting` flag false, so the submit control is re-enabled. -/
theorem claim10_submitting_false (currentYear : Int)
    (penv : ProjectEnv) (pform : ProjectForm) (ps0 : List Payload)
    (senv : ServiceEnv) (sform : ServiceForm) (ss0 : List Payload)
    (genv : GalleryEnv) (gform : GalleryForm) (it0 : List Payload) :
    (handleSubmit currentYear penv pform ps0).submitting = false ∧
    (handleServiceSubmit senv sform ss0).submitting = false ∧
    (handleGallerySubmit genv gform it0 false).submitting = false := by
  refine ⟨?_, ?_, ?_⟩
  · simp only [handleSubmit]
    repeat' split
    all_goals rfl
  · simp only [handleServiceSubmit]
    repeat' split
    all_goals rfl
  · simp only [handleGallerySubmit]
    repeat' split
    all_goals rfl

/-! ### Witnesses: the claim theorems evaluated at concrete inputs -/

/-- C1 at a concrete two-image submission. -/
theorem claim1_witness :
    (handleSubmit 2025
      ⟨.ok "p1", fun _ => "r", fun _ => none, fun _ => none,
       fun _ => "r", fun _ => none, fun _ => none, .ok []⟩
      ⟨"T", "D", "C", "", none, [⟨"a.jpg"⟩, ⟨"b.jpg"⟩], []⟩ []).successToast = true ∧
    (rowsFor "project_images"
      (handleSubmit 2025
        ⟨.ok "p1", fun _ => "r", fun _ => none, fun _ => none,
         fun _ => "r", fun _ => none, fun _ => none, .ok []⟩
        ⟨"T", "D", "C", "", none, [⟨"a.jpg"⟩, ⟨"b.jpg"⟩], []⟩ []).committed).length = 2 := by
  have h := claim1_project_image_rows 2025
    ⟨.ok "p1", fun _ => "r", fun _ => none, fun _ => none,
     fun _ => "r", fun _ => none, fun _ => none, .ok []⟩
    ⟨"T", "D", "C", "", none, [⟨"a.jpg"⟩, ⟨"b.jpg"⟩], []⟩ []
    ⟨"T", "D", "C", none, none⟩ "p1" rfl rfl
    (fun _ => rfl) (fun _ => rfl) (fun _ => rfl) (fun _ => rfl)
  exact ⟨h.1, h.2.1⟩

/-- C2 at the spec's scenario: three gallery images, the second upload
fails; exactly one row is committed and an error notice is shown. -/
theorem claim2_witness :
    (handleGallerySubmit
      ⟨fun _ => "r", fun j => if j = 1 then some "boom" else none,
       fun _ => none, none, .ok []⟩
      ⟨"image", [⟨"a.jpg"⟩, ⟨"b.jpg"⟩, ⟨"c.jpg"⟩], "", "", "", "team"⟩
      [] false).committed.length = 1 ∧
    (handleGallerySubmit
      ⟨fun _ => "r", fun j => if j = 1 then some "boom" else none,
       fun _ => none, none, .ok []⟩
      ⟨"image", [⟨"a.jpg"⟩, ⟨"b.jpg"⟩, ⟨"c.jpg"⟩], "", "", "", "team"⟩
      [] false).errorMsg = some "boom" := by
  have h := claim2_gallery_failfast
    ⟨fun _ => "r", fun j => if j = 1 then some "boom" else none,
     fun _ => none, none, .ok []⟩
    ⟨"image", [⟨"a.jpg"⟩, ⟨"b.jpg"⟩, ⟨"c.jpg"⟩], "", "", "", "team"⟩
    [] false 1 "boom" ⟨none, none, "team"⟩ rfl (by decide)
    (fun j hj => by
      have hj0 : j = 0 := by omega
      subst hj0
      exact ⟨rfl, rfl⟩)
    (Or.inl rfl) rfl
  exact ⟨h.1, h.2.2.2.2.2.1⟩

/-- C3 at a concrete submission whose description has 2001 characters. -/
theorem claim3_witness :
    (handleSubmit 2025
      ⟨.ok "p1", fun _ => "r", fun _ => none, fun _ => none,
       fun _ => "r", fun _ => none, fun _ => none, .ok []⟩
      ⟨"T", ⟨List.replicate 2001 'a'⟩, "C", "", none, [], []⟩ []).ops = [] ∧
    (handleSubmit 2025
      ⟨.ok "p1", fun _ => "r", fun _ => none, fun _ => none,
       fun _ => "r", fun _ => none, fun _ => none, .ok []⟩
      ⟨"T", ⟨List.replicate 2001 'a'⟩, "C", "", none, [], []⟩ []).errorMsg.isSome = true := by
  have h := claim3_long_description_rejected 2025
    ⟨.ok "p1", fun _ => "r", fun _ => none, fun _ => none,
     fun _ => "r", fun _ => none, fun _ => none, .ok []⟩
    ⟨"T", ⟨List.replicate 2001 'a'⟩, "C", "", none, [], []⟩ []
    (by
      show (jsTrim ⟨List.replicate 2001 'a'⟩).length > 2000
      rw [jsTrim_replicate, length_replicate_string]
      omega)
  exact ⟨h.1, h.2.2.2.1⟩

/-- C4 (amended) at concrete gallery and project deletions. -/
theorem claim4_amended_witness :
    (deleteGalleryItem ⟨none, none, .ok []⟩ true "g1" (some "bucket/obj.jpg") []).ops.head?
      = some (NetOp.storageRemove "gallery-images" [lastSegment "bucket/obj.jpg"]) ∧
    NetOp.dbDelete "projects" "p1" ∈ (deleteProject ⟨none, none, .ok []⟩ true "p1" []).ops :=
  ⟨(claim4_amended.1 ⟨none, none, .ok []⟩ "g1" "bucket/obj.jpg" []).1 (by decide),
   (claim4_amended.2.1 ⟨none, none, .ok []⟩ "p1" []).1⟩

/-- C6 at the spec's scenario: a second service with slug
`living-room`; the backend's uniqueness error is surfaced. -/
theorem claim6_witness :
    (handleServiceSubmit
      ⟨none, .error "duplicate slug", fun _ => "r", fun _ => none, fun _ => none,
       fun _ => "r", fun _ => none, fun _ => none, .ok []⟩
      ⟨"Living Room", "living-room", "", "Full ceiling description", "", [], [], none⟩
      []).errorMsg = some "duplicate slug" ∧
    (handleServiceSubmit
      ⟨none, .error "duplicate slug", fun _ => "r", fun _ => none, fun _ => none,
       fun _ => "r", fun _ => none, fun _ => none, .ok []⟩
      ⟨"Living Room", "living-room", "", "Full ceiling description", "", [], [], none⟩
      []).successToast = false := by
  have h := claim6_slug_not_checked_locally
    ⟨none, .error "duplicate slug", fun _ => "r", fun _ => none, fun _ => none,
     fun _ => "r", fun _ => none, fun _ => none, .ok []⟩
    ⟨"Living Room", "living-room", "", "Full ceiling description", "", [], [], none⟩
    [] ["living-room"] "duplicate slug" rfl (by decide)
    (by decide) (by decide) (by decide) (by decide) (by decide) (by decide) (by decide)
    rfl
  obtain ⟨v, _, _, hmsg, hsucc, _⟩ := h
  exact ⟨hmsg, hsucc⟩

/-- C7 (amended) at a concrete one-image gallery batch. -/
theorem claim7_amended_witness :
    (rowsFor "gallery"
      (handleGallerySubmit
        ⟨fun _ => "r", fun _ => none, fun _ => none, none, .ok []⟩
        ⟨"image", [⟨"a.jpg"⟩], "", "", "", "team"⟩ [] false).committed).map
      (fun r => List.lookup "display_order" r) = List.replicate 1 none :=
  claim7_amended.2.2
    ⟨fun _ => "r", fun _ => none, fun _ => none, none, .ok []⟩
    ⟨"image", [⟨"a.jpg"⟩], "", "", "", "team"⟩ [] false ⟨none, none, "team"⟩
    rfl (by decide) rfl (fun _ => rfl) (fun _ => rfl)

/-- C8 (amended) at a concrete accepted service record. -/
theorem claim8_amended_witness :
    ("t" : String) = jsTrim "t" ∧ 1 ≤ ("t" : String).length ∧
    ("t" : String).length ≤ 200 := by
  have h := claim8_amended.2.1 ⟨"t", "s", none, "d", none⟩
    ⟨"t", "s", none, "d", none⟩ rfl
  exact ⟨h.1, h.2.1, h.2.2.1⟩

end Miccoach
